import Mathlib

/-!
Shallow embedding of the adaptive vocabulary-learning core of this repository:
`src/core/models.py`, `src/core/adaptive_learning.py`,
`src/core/learning_session.py`, `src/core/progress_tracker.py` and
`src/core/session_persistence.py`.

Counters are embedded as `Nat` (the pydantic models constrain them with
`ge=0` and the code only increments them); `priority_score` is embedded as
`Int` (Python `int` with `ge=1, le=100`); the success-rate division, a Python
float division of two machine-range ints compared against 0.75, is embedded
as exact rational arithmetic over `ℚ`; timestamps are embedded as `Int`
epoch seconds. Python dicts are embedded as insertion-ordered association
lists with unique keys.
-/

/-- Modelled from the spec: `config/settings.py` is not among the sources.
The spec (§4.1) fixes `K_STREAK` default 3, and the docstring of
`AdaptiveLearning` states the same value for `MASTERY_CONSECUTIVE_CORRECT`. -/
def MASTERY_CONSECUTIVE_CORRECT : Nat := 3

/-- Modelled from the spec: `config/settings.py` is not among the sources.
The spec (§4.1) fixes `K_MIN_ATTEMPTS` default 3. -/
def MASTERY_MIN_ATTEMPTS : Nat := 3

/-- Modelled from the spec: `config/settings.py` is not among the sources.
The spec (§4.1) fixes `K_SUCCESS_RATE` default 0.75. -/
def MASTERY_SUCCESS_RATE : ℚ := 3 / 4

/-- `Word` from `src/core/models.py` (pydantic model): per-word mastery
counters, mastery flag and selection priority. These seven fields are the
complete field list of the model; a pydantic instance raises
`AttributeError` on access to any other attribute name. -/
structure Word where
  text : String
  consecutive_correct : Nat := 0
  total_attempts : Nat := 0
  correct_count : Nat := 0
  incorrect_count : Nat := 0
  is_mastered : Bool := false
  priority_score : Int := 100
deriving DecidableEq, Repr

/-- A freshly constructed `Word(text=word)`, as built by
`LearningSession.__init__`: all counters 0, not mastered, priority 100. -/
def Word.fresh (t : String) : Word := { text := t }

/-- `AdaptiveLearning.is_word_mastered` (`src/core/adaptive_learning.py`
lines 75-109): four early-return checks, then the success-rate check with
the rate taken as 0 when `total_attempts = 0`. -/
def is_word_mastered (w : Word) : Bool :=
  if w.consecutive_correct < MASTERY_CONSECUTIVE_CORRECT then false
  else if w.total_attempts < MASTERY_MIN_ATTEMPTS then false
  else if w.correct_count < MASTERY_MIN_ATTEMPTS then false
  else
    let success_rate : ℚ :=
      if w.total_attempts > 0 then (w.correct_count : ℚ) / (w.total_attempts : ℚ) else 0
    if success_rate < MASTERY_SUCCESS_RATE then false else true

/-- `AdaptiveLearning.update_word_status` (`src/core/adaptive_learning.py`
lines 29-72), as the state transformer on the mutated `Word`. The Python
function also returns a bool that is constantly `True` on this pure fragment
(its `except` branch is unreachable: the body only does attribute updates on
fields that exist). On a correct answer the three counters are incremented,
`is_mastered` is set (only upwards) from `is_word_mastered`, and the priority
is lowered to `max 1 (p - 20)`; on an incorrect answer the streak is reset,
`incorrect_count` and `total_attempts` are incremented, `is_mastered` is
forced to `false` and the priority is raised to `min 100 (p + 30)`. -/
def update_word_status (w : Word) (is_correct : Bool) : Word :=
  if is_correct then
    let w1 : Word :=
      { w with consecutive_correct := w.consecutive_correct + 1,
               correct_count := w.correct_count + 1,
               total_attempts := w.total_attempts + 1 }
    let w2 : Word := if is_word_mastered w1 then { w1 with is_mastered := true } else w1
    { w2 with priority_score := max 1 (w2.priority_score - 20) }
  else
    { w with consecutive_correct := 0,
             incorrect_count := w.incorrect_count + 1,
             total_attempts := w.total_attempts + 1,
             is_mastered := false,
             priority_score := min 100 (w.priority_score + 30) }

/-- Replay a sequence of answers against one word, left to right. -/
def run_answers (w : Word) (answers : List Bool) : Word :=
  answers.foldl update_word_status w

/-- `has_recent_error` inside `sort_key` (`src/core/adaptive_learning.py`
line 156): `word.incorrect_count > 0 and word.consecutive_correct == 0`. -/
def has_recent_error (w : Word) : Bool :=
  decide (0 < w.incorrect_count) && decide (w.consecutive_correct = 0)

/-- `sort_key` (`src/core/adaptive_learning.py` lines 153-162): the tuple
`(-int(has_recent_error), -priority_score, total_attempts)` that Python sorts
ascending and lexicographically. -/
def sort_key (w : Word) : Int × Int × Nat :=
  (-(if has_recent_error w then 1 else 0), -w.priority_score, (w.total_attempts : Nat))

/-- Lexicographic order on the composite sort key, the order in which
Python's stable `list.sort(key=sort_key)` arranges the candidates. -/
def key_le (a b : Int × Int × Nat) : Bool :=
  decide (a.1 < b.1) ||
    (decide (a.1 = b.1) && (decide (a.2.1 < b.2.1) ||
      (decide (a.2.1 = b.2.1) && decide (a.2.2 ≤ b.2.2))))

/-- Comparator on `(text, word)` pairs induced by `sort_key`, as used by
`unmastered_words.sort(key=sort_key)`. -/
def le_word (a b : String × Word) : Bool := key_le (sort_key a.2) (sort_key b.2)

/-- `AdaptiveLearning.get_next_word_by_priority`
(`src/core/adaptive_learning.py` lines 112-186). The `words` dict is embedded
as an insertion-ordered association list. Steps, as in the source: filter out
mastered words; if none remain return `None`; stable-sort the candidates by
`sort_key` and take the first; defensively, if the selected word is somehow
mastered, retry on the pool without it (returning `None` when nothing is
left). The `except` branch of the source is unreachable on this pure
fragment. -/
def get_next_word_by_priority (words : List (String × Word)) : Option String :=
  if (words.filter fun p => !p.2.is_mastered).isEmpty then none
  else
    match hmatch : (words.filter fun p => !p.2.is_mastered).mergeSort le_word with
    | [] => none
    | (text, wobj) :: tail =>
      if wobj.is_mastered then
        if (words.filter fun p => !(p.1 == text)).isEmpty then none
        else get_next_word_by_priority (words.filter fun p => !(p.1 == text))
      else some text
termination_by words.length
decreasing_by
  have hmem : (text, wobj) ∈ words := by
    have h1 : (text, wobj) ∈ (words.filter fun p => !p.2.is_mastered).mergeSort le_word := by
      rw [hmatch]; exact List.mem_cons_self _ _
    exact List.mem_of_mem_filter (List.mem_mergeSort.mp h1)
  refine List.length_filter_lt_length_iff_exists.mpr ⟨(text, wobj), hmem, ?_⟩
  simp

/-- `SessionStats` from `src/core/models.py` (pydantic model). `started_at`
and `ended_at` are embedded as `Int` epoch seconds, `ended_at` being `none`
until the session is finished. -/
structure SessionStats where
  session_id : String
  user_id : Int
  dict_id : String
  dict_name : String
  started_at : Int
  ended_at : Option Int := none
  total_words : Nat
  correct_answers : Nat := 0
  incorrect_answers : Nat := 0
  words_mastered : Nat := 0
  words_mastered_list : List String := []
deriving DecidableEq, Repr

/-- `SessionStats.duration_seconds` (`src/core/models.py` lines 91-96):
0 when `ended_at` is unset, otherwise `ended_at - started_at` in seconds. -/
def SessionStats.duration_seconds (s : SessionStats) : Int :=
  match s.ended_at with
  | none => 0
  | some e => e - s.started_at

/-- `SessionStats.success_rate` (`src/core/models.py` lines 98-104): 0 when
there are no answers, otherwise `correct / total * 100` — the source returns
a percentage, embedded here as the exact rational. -/
def SessionStats.success_rate (s : SessionStats) : ℚ :=
  let total : Nat := s.correct_answers + s.incorrect_answers
  if total = 0 then 0
  else (s.correct_answers : ℚ) / (total : ℚ) * 100

/-- `LearningSession` (`src/core/learning_session.py`): the in-memory session
state — the word pool keyed by text, the currently shown word, the show
counter and the running stats. -/
structure LearningSession where
  user_id : Int
  dict_id : String
  dict_name : String
  session_id : String
  words : List (String × Word)
  current_word : Option String := none
  total_words_shown : Nat := 0
  stats : SessionStats
deriving DecidableEq, Repr

/-- `LearningSession.record_answer` (`src/core/learning_session.py` lines
155-194), as `(returned bool, resulting session)`. The source returns `False`
(leaving everything untouched) exactly when `word` is not a key of
`self.words`; it performs no comparison against `self.current_word`.
Otherwise it updates the word via `update_word_status`, bumps the session's
correct/incorrect counter, and appends the word to `words_mastered_list`
(bumping `words_mastered`) if it is now mastered and not already listed. -/
def record_answer (s : LearningSession) (word : String) (is_correct : Bool) :
    Bool × LearningSession :=
  match s.words.lookup word with
  | none => (false, s)
  | some word_obj =>
    let word_obj2 := update_word_status word_obj is_correct
    let words2 := s.words.map fun p => if p.1 = word then (p.1, word_obj2) else p
    let stats2 :=
      if is_correct then { s.stats with correct_answers := s.stats.correct_answers + 1 }
      else { s.stats with incorrect_answers := s.stats.incorrect_answers + 1 }
    let stats3 :=
      if word_obj2.is_mastered && !(stats2.words_mastered_list.contains word) then
        { stats2 with
            words_mastered_list := stats2.words_mastered_list ++ [word],
            words_mastered := stats2.words_mastered + 1 }
      else stats2
    (true, { s with words := words2, stats := stats3 })

/-- `WordProgress` from `src/core/models.py`: long-term per-word progress. -/
structure WordProgress where
  word : String
  total_correct : Nat := 0
  total_incorrect : Nat := 0
  times_mastered : Nat := 0
  last_attempted : Option Int := none
deriving DecidableEq, Repr

/-- `UserProgress` from `src/core/models.py`: durable cross-session learner
record; `dictionaries_progress` maps dictionary id to a per-word map. -/
structure UserProgress where
  user_id : Int
  total_words_learned : Nat := 0
  total_sessions : Nat := 0
  total_attempts : Nat := 0
  total_correct : Nat := 0
  total_incorrect : Nat := 0
  dictionaries_progress : List (String × List (String × WordProgress)) := []
  last_activity : Option Int := none
deriving DecidableEq, Repr

/-- The `for word in words_mastered` loop of
`ProgressTracker.update_session_stats` (`src/core/progress_tracker.py` lines
166-171): `total_words_learned` grows by one for every entry of the list
(with multiplicity) whose existing `WordProgress` has `times_mastered == 1`;
entries missing from the dictionary progress contribute nothing. -/
def words_learned_increment (dict_progress : List (String × WordProgress))
    (words_mastered : List String) : Nat :=
  (words_mastered.filter fun w =>
    match dict_progress.lookup w with
    | some wp => wp.times_mastered == 1
    | none => false).length

/-- `ProgressTracker.update_session_stats` (`src/core/progress_tracker.py`
lines 146-177), as the state transformer on `self.progress`. It increments
`total_sessions`, adds the answer counts, and bumps `total_words_learned`
per the loop modelled by `words_learned_increment`; it never modifies
`dictionaries_progress` (in particular no `times_mastered` changes). The
trailing `_save_progress` call only touches `last_activity` and the disk. -/
def update_session_stats (p : UserProgress) (dict_id : String)
    (correct_count incorrect_count : Nat) (words_mastered : List String) : UserProgress :=
  let dict_progress := (p.dictionaries_progress.lookup dict_id).getD []
  { p with
      total_sessions := p.total_sessions + 1,
      total_correct := p.total_correct + correct_count,
      total_incorrect := p.total_incorrect + incorrect_count,
      total_words_learned :=
        p.total_words_learned + words_learned_increment dict_progress words_mastered }

/-- A Python attribute value, for modelling pydantic attribute access. -/
inductive PyVal where
  | int (n : Int)
  | str (s : String)
  | bool (b : Bool)
deriving DecidableEq, Repr

/-- Attribute table of a `Word` pydantic instance: exactly the seven declared
fields of the model in `src/core/models.py` resolve; any other attribute
name raises `AttributeError`, modelled as `none`. -/
def Word.getattr (w : Word) : String → Option PyVal
  | "text" => some (.str w.text)
  | "consecutive_correct" => some (.int w.consecutive_correct)
  | "total_attempts" => some (.int w.total_attempts)
  | "correct_count" => some (.int w.correct_count)
  | "incorrect_count" => some (.int w.incorrect_count)
  | "is_mastered" => some (.bool w.is_mastered)
  | "priority_score" => some (.int w.priority_score)
  | _ => none

/-- The per-word record of `words_stats` built by
`SessionPersistence.save_session` (`src/core/session_persistence.py` lines
53-63). -/
structure SavedWordStats where
  correct_count : PyVal
  incorrect_count : PyVal
  total_attempts : PyVal
  times_mastered : PyVal
  is_mastered : PyVal
  last_attempted : Option PyVal
deriving DecidableEq, Repr

/-- One entry of `words_stats` as `save_session` builds it: plain attribute
reads for `correct_count`, `incorrect_count`, `total_attempts`,
`times_mastered` and `is_mastered` (a read of an undeclared attribute aborts
the whole save with `AttributeError`, modelled as `none`), while
`last_attempted` is guarded by `hasattr` and falls back to `None` without
raising. -/
def serialize_word_stats (w : Word) : Option SavedWordStats := do
  let cc ← w.getattr "correct_count"
  let ic ← w.getattr "incorrect_count"
  let ta ← w.getattr "total_attempts"
  let tm ← w.getattr "times_mastered"
  let im ← w.getattr "is_mastered"
  let la := if (w.getattr "last_attempted").isSome then w.getattr "last_attempted" else none
  pure { correct_count := cc, incorrect_count := ic, total_attempts := ta,
         times_mastered := tm, is_mastered := im, last_attempted := la }

/-- The JSON document `save_session` writes (`session_data` in
`src/core/session_persistence.py` lines 45-64). Note it carries no
`priority_score` and no `consecutive_correct` for any word. -/
structure SavedSession where
  user_id : Int
  session_id : String
  dict_id : String
  dict_name : String
  words_list : List String
  current_word : Option String
  stats : SessionStats
  words_stats : List (String × SavedWordStats)
deriving DecidableEq, Repr

/-- `SessionPersistence.save_session` (`src/core/session_persistence.py`
lines 27-72): builds `session_data` and writes it, returning `True`; any
exception while building it is caught, nothing is written, and `False` is
returned. Embedded as `some data` for a successful durable save and `none`
for the failure branch (the `save_json` call happens only after `session_data`
is fully built). -/
def save_session (user_id : Int) (session : LearningSession) : Option SavedSession := do
  let words_stats ← session.words.mapM fun p => do
    let st ← serialize_word_stats p.2
    pure (p.1, st)
  pure { user_id := user_id, session_id := session.session_id,
         dict_id := session.dict_id, dict_name := session.dict_name,
         words_list := session.words.map Prod.fst,
         current_word := session.current_word,
         stats := session.stats, words_stats := words_stats }

/-- Concrete fully-mastered two-word pool, instantiating C2. -/
def c2_pool : List (String × Word) :=
  [("alpha", { text := "alpha", consecutive_correct := 3, total_attempts := 3,
               correct_count := 3, incorrect_count := 0, is_mastered := true,
               priority_score := 40 }),
   ("beta", { text := "beta", consecutive_correct := 3, total_attempts := 4,
              correct_count := 3, incorrect_count := 1, is_mastered := true,
              priority_score := 70 })]

/-- Concrete pool with unmastered words, instantiating C8. -/
def c8_pool : List (String × Word) :=
  [("gamma", { text := "gamma", consecutive_correct := 3, total_attempts := 3,
               correct_count := 3, incorrect_count := 0, is_mastered := true,
               priority_score := 40 }),
   ("delta", Word.fresh "delta"),
   ("eps", { text := "eps", consecutive_correct := 0, total_attempts := 1,
             correct_count := 0, incorrect_count := 1, is_mastered := false,
             priority_score := 100 })]

/-- Concrete stats of a freshly started two-word session. -/
def c5_stats : SessionStats :=
  { session_id := "s5", user_id := 1, dict_id := "d5", dict_name := "Dict5",
    started_at := 0, total_words := 2 }

/-- Concrete session whose current word is "alpha" while "beta" is also in
the pool, instantiating C5. -/
def c5_session : LearningSession :=
  { user_id := 1, dict_id := "d5", dict_name := "Dict5", session_id := "s5",
    words := [("alpha", Word.fresh "alpha"), ("beta", Word.fresh "beta")],
    current_word := some "alpha", total_words_shown := 1, stats := c5_stats }

/-- Concrete learner progress where word "w" of dictionary "d" has
`times_mastered = 1`, instantiating C6. -/
def c6_progress : UserProgress :=
  { user_id := 1,
    dictionaries_progress :=
      [("d", [("w", { word := "w", total_correct := 3, times_mastered := 1 })])] }

/-- Concrete stats with one correct and one incorrect answer and no end
time, instantiating C9. -/
def c9_stats : SessionStats :=
  { session_id := "s9", user_id := 1, dict_id := "d9", dict_name := "Dict9",
    started_at := 0, total_words := 1, correct_answers := 1, incorrect_answers := 1 }

/-- Concrete stats with no answers recorded, instantiating the zero branch
of C9. -/
def c9_zero_stats : SessionStats :=
  { session_id := "s9z", user_id := 1, dict_id := "d9", dict_name := "Dict9",
    started_at := 0, total_words := 1 }

/-- Concrete one-word session, instantiating C10. -/
def c10_session : LearningSession :=
  { user_id := 1, dict_id := "d10", dict_name := "Dict10", session_id := "sA",
    words := [("omega", Word.fresh "omega")],
    stats := { session_id := "sA", user_id := 1, dict_id := "d10",
               dict_name := "Dict10", started_at := 0, total_words := 1 } }

/-- Concrete two-word mid-run session a caller would try to pause,
instantiating C4. -/
def c4_session : LearningSession :=
  { user_id := 7, dict_id := "d4", dict_name := "Dict4", session_id := "sB",
    words := [("alpha", { text := "alpha", consecutive_correct := 1,
                          total_attempts := 5, correct_count := 4,
                          incorrect_count := 1, is_mastered := false,
                          priority_score := 10 }),
              ("beta", Word.fresh "beta")],
    current_word := some "alpha", total_words_shown := 6,
    stats := { session_id := "sB", user_id := 7, dict_id := "d4",
               dict_name := "Dict4", started_at := 0, total_words := 2,
               correct_answers := 4, incorrect_answers := 1 } }

lemma update_word_status_inv (w : Word) (b : Bool)
    (h1 : w.total_attempts = w.correct_count + w.incorrect_count)
    (h2 : 1 ≤ w.priority_score) (h3 : w.priority_score ≤ 100) :
    (update_word_status w b).total_attempts
        = (update_word_status w b).correct_count + (update_word_status w b).incorrect_count
      ∧ 1 ≤ (update_word_status w b).priority_score
      ∧ (update_word_status w b).priority_score ≤ 100 := by
  cases b with
  | false =>
      refine ⟨?_, ?_, ?_⟩ <;> simp [update_word_status] <;> omega
  | true =>
      refine ⟨?_, ?_, ?_⟩ <;> simp [update_word_status] <;> split <;> simp <;> omega

lemma run_answers_inv (answers : List Bool) (w : Word)
    (h1 : w.total_attempts = w.correct_count + w.incorrect_count)
    (h2 : 1 ≤ w.priority_score) (h3 : w.priority_score ≤ 100) :
    (run_answers w answers).total_attempts
        = (run_answers w answers).correct_count + (run_answers w answers).incorrect_count
      ∧ 1 ≤ (run_answers w answers).priority_score
      ∧ (run_answers w answers).priority_score ≤ 100 := by
  induction answers generalizing w with
  | nil => exact ⟨h1, h2, h3⟩
  | cons b rest ih =>
      obtain ⟨g1, g2, g3⟩ := update_word_status_inv w b h1 h2 h3
      exact ih (update_word_status w b) g1 g2 g3

lemma key_le_refl (a : Int × Int × Nat) : key_le a a = true := by
  simp [key_le]

lemma le_word_trans (a b c : String × Word) :
    le_word a b → le_word b c → le_word a c := by
  intro h1 h2
  simp only [le_word, key_le, Bool.or_eq_true, Bool.and_eq_true, decide_eq_true_eq] at h1 h2 ⊢
  omega

lemma le_word_total (a b : String × Word) : le_word a b || le_word b a := by
  simp only [le_word, key_le, Bool.or_eq_true, Bool.and_eq_true, decide_eq_true_eq]
  omega

/-- Case analysis of one evaluation of `get_next_word_by_priority`: either the
pool is fully mastered and the result is `none`, or the result is the head of
the sorted unmastered candidates, which is an unmastered member of the pool. -/
lemma get_next_word_spec (words : List (String × Word)) :
    (get_next_word_by_priority words = none ∧ ∀ p ∈ words, p.2.is_mastered = true)
    ∨ (∃ text wobj tail,
        (words.filter fun p => !p.2.is_mastered).mergeSort le_word = (text, wobj) :: tail
        ∧ get_next_word_by_priority words = some text
        ∧ (text, wobj) ∈ words ∧ wobj.is_mastered = false) := by
  rw [get_next_word_by_priority]
  by_cases he : (words.filter fun p => !p.2.is_mastered).isEmpty
  · rw [if_pos he]
    left
    refine ⟨rfl, fun p hp => ?_⟩
    have h0 := List.filter_eq_nil_iff.mp (List.isEmpty_iff.mp he) p hp
    simpa using h0
  · rw [if_neg he]
    split
    next hs =>
      exfalso
      apply he
      have h0 : ((words.filter fun p => !p.2.is_mastered).mergeSort le_word).length
          = (words.filter fun p => !p.2.is_mastered).length :=
        List.length_mergeSort _
      rw [hs] at h0
      rw [List.isEmpty_iff, ← List.length_eq_zero, ← h0]
      rfl
    next text wobj tail hs =>
      have hmemf : (text, wobj) ∈ words.filter fun p => !p.2.is_mastered :=
        List.mem_mergeSort.mp (hs ▸ List.mem_cons_self _ _)
      have hum : wobj.is_mastered = false := by
        have h0 := (List.mem_filter.mp hmemf).2
        simpa using h0
      rw [if_neg (by simp [hum])]
      exact Or.inr ⟨text, wobj, tail, hs, rfl, List.mem_of_mem_filter hmemf, hum⟩

lemma mem_key_unique {l : List (String × Word)} (h : (l.map Prod.fst).Nodup)
    {t : String} {a b : Word} (ha : (t, a) ∈ l) (hb : (t, b) ∈ l) : a = b := by
  induction l with
  | nil => cases ha
  | cons p rest ih =>
      rw [List.map_cons, List.nodup_cons] at h
      rcases List.mem_cons.mp ha with h1 | h1
      · rcases List.mem_cons.mp hb with h2 | h2
        · rw [← h2] at h1
          exact congrArg Prod.snd h1
        · exfalso
          apply h.1
          rw [← h1]
          exact List.mem_map.mpr ⟨(t, b), h2, rfl⟩
      · rcases List.mem_cons.mp hb with h2 | h2
        · exfalso
          apply h.1
          rw [← h2]
          exact List.mem_map.mpr ⟨(t, a), h1, rfl⟩
        · exact ih h.2 h1 h2

/-- C1: `is_word_mastered` returns true iff all four mastery conditions hold —
streak at least `K_STREAK`, at least `K_MIN_ATTEMPTS` attempts, at least
`K_MIN_ATTEMPTS` correct answers, and success rate (0 when there are no
attempts) at least `K_SUCCESS_RATE` — and false whenever any one fails. -/
theorem C1_is_word_mastered_iff (w : Word) :
    is_word_mastered w = true ↔
      (MASTERY_CONSECUTIVE_CORRECT ≤ w.consecutive_correct
        ∧ MASTERY_MIN_ATTEMPTS ≤ w.total_attempts
        ∧ MASTERY_MIN_ATTEMPTS ≤ w.correct_count
        ∧ MASTERY_SUCCESS_RATE ≤
            (if 0 < w.total_attempts then (w.correct_count : ℚ) / (w.total_attempts : ℚ) else 0)) := by
  simp only [is_word_mastered, MASTERY_CONSECUTIVE_CORRECT, MASTERY_MIN_ATTEMPTS,
    MASTERY_SUCCESS_RATE]
  by_cases h1 : w.consecutive_correct < 3
  · rw [if_pos h1]
    exact ⟨fun hft => absurd hft (by decide), fun hc => absurd hc.1 (by omega)⟩
  rw [if_neg h1]
  by_cases h2 : w.total_attempts < 3
  · rw [if_pos h2]
    exact ⟨fun hft => absurd hft (by decide), fun hc => absurd hc.2.1 (by omega)⟩
  rw [if_neg h2]
  by_cases h3 : w.correct_count < 3
  · rw [if_pos h3]
    exact ⟨fun hft => absurd hft (by decide), fun hc => absurd hc.2.2.1 (by omega)⟩
  rw [if_neg h3]
  have hpos : 0 < w.total_attempts := by omega
  rw [if_pos (show w.total_attempts > 0 from hpos)]
  by_cases h4 : (w.correct_count : ℚ) / (w.total_attempts : ℚ) < 3 / 4
  · rw [if_pos h4]
    exact ⟨fun hft => absurd hft (by decide),
           fun hc => absurd hc.2.2.2 (not_le.mpr h4)⟩
  · rw [if_neg h4]
    exact ⟨fun _ => ⟨by omega, by omega, by omega, not_lt.mp h4⟩, fun _ => rfl⟩

/-- C2: on a pool with pairwise-distinct keys, `get_next_word_by_priority`
never returns the text of a mastered word, and — for a non-empty pool — it
returns `none` exactly when every word in the pool is mastered. -/
theorem C2_select_excludes_mastered (words : List (String × Word))
    (hnd : (words.map Prod.fst).Nodup) :
    (∀ t, get_next_word_by_priority words = some t →
        ∀ w, (t, w) ∈ words → w.is_mastered = false)
      ∧ (words ≠ [] →
          (get_next_word_by_priority words = none ↔ ∀ p ∈ words, p.2.is_mastered = true)) := by
  constructor
  · intro t ht w hw
    rcases get_next_word_spec words with ⟨hn, -⟩ | ⟨text, wobj, tail, hs, hres, hmem, hum⟩
    · rw [hn] at ht; cases ht
    · rw [hres] at ht
      have htx : text = t := Option.some.inj ht
      subst htx
      rw [mem_key_unique hnd hw hmem]
      exact hum
  · intro hne
    constructor
    · intro hnone
      rcases get_next_word_spec words with ⟨-, hall⟩ | ⟨text, wobj, tail, hs, hres, hmem, hum⟩
      · exact hall
      · rw [hres] at hnone; cases hnone
    · intro hall
      rcases get_next_word_spec words with ⟨hn, -⟩ | ⟨text, wobj, tail, hs, hres, hmem, hum⟩
      · exact hn
      · rw [hall (text, wobj) hmem] at hum; cases hum

/-- C2 witness: on the concrete fully-mastered two-key pool, the hypotheses
hold and selection returns `none` iff every word is mastered. -/
theorem C2_select_excludes_mastered_witness :
    (c2_pool.map Prod.fst).Nodup ∧ c2_pool ≠ []
      ∧ (get_next_word_by_priority c2_pool = none ↔ ∀ p ∈ c2_pool, p.2.is_mastered = true) :=
  ⟨by decide, by decide,
    (C2_select_excludes_mastered c2_pool (by decide)).2 (by decide)⟩

/-- C3: on an incorrect answer `update_word_status` resets the streak to 0,
increments `incorrect_count` and `total_attempts`, unconditionally clears
`is_mastered`, sets the priority to `min 100 (p + 30)` and leaves
`correct_count` (and the text) unchanged; in particular a mastered word with
streak 3, 3 attempts and 3 correct answers ends up with streak 0, 4 attempts,
1 error and mastery revoked. -/
theorem C3_incorrect_answer_update (w : Word) :
    (update_word_status w false).consecutive_correct = 0
      ∧ (update_word_status w false).incorrect_count = w.incorrect_count + 1
      ∧ (update_word_status w false).total_attempts = w.total_attempts + 1
      ∧ (update_word_status w false).is_mastered = false
      ∧ (update_word_status w false).priority_score = min 100 (w.priority_score + 30)
      ∧ (update_word_status w false).correct_count = w.correct_count
      ∧ update_word_status (Word.mk "w" 3 3 3 0 true 100) false
          = Word.mk "w" 0 4 3 1 false 100 :=
  ⟨rfl, rfl, rfl, rfl, rfl, rfl, rfl⟩

/-- C4: the round-trip property is unattainable in the code: pausing the
concrete mid-run two-word session fails — `save_session` reads the
undeclared `times_mastered` attribute of the first `Word`, takes its
exception branch and persists nothing, so no successful save exists for
`load_session` to restore (and the serialized format, `SavedSession`,
carries no `priority_score` or `consecutive_correct` to restore from). -/
theorem C4_pause_roundtrip_unattainable :
    c4_session.words ≠ [] ∧ save_session 7 c4_session = none :=
  ⟨by decide, rfl⟩

/-- C5 counterexample: the claim predicts `record_answer` returns `false`
for a word that is in the pool but differs from `current_word`; on the
concrete session with current word "alpha", answering for "beta" returns
`true` (the source never compares against `current_word`). -/
theorem C5_counterexample :
    c5_session.current_word = some "alpha"
      ∧ ("beta" : String) ≠ "alpha"
      ∧ (record_answer c5_session "beta" true).1 = true :=
  ⟨rfl, by decide, rfl⟩

/-- C5 (amended): `record_answer` returns `false` iff the answered text is
not a key of the pool — no `current_word` check is performed — and in that
failure case the session is returned entirely unchanged. -/
theorem C5_record_answer_unknown_only (s : LearningSession) (t : String) (c : Bool) :
    ((record_answer s t c).1 = false ↔ s.words.lookup t = none)
      ∧ (s.words.lookup t = none → (record_answer s t c).2 = s) := by
  refine ⟨⟨fun hf => ?_, fun hl => ?_⟩, fun hl => ?_⟩
  · cases hl : s.words.lookup t with
    | none => rfl
    | some w => rw [record_answer] at hf; rw [hl] at hf; cases hf
  · rw [record_answer]; rw [hl]
  · rw [record_answer]; rw [hl]

/-- C5 witness: on the concrete session, answering for a text outside the
pool returns `false` and leaves the session unchanged. -/
theorem C5_record_answer_unknown_only_witness :
    (record_answer c5_session "zz" true).1 = false
      ∧ (record_answer c5_session "zz" true).2 = c5_session :=
  ⟨(C5_record_answer_unknown_only c5_session "zz" true).1.mpr rfl,
   (C5_record_answer_unknown_only c5_session "zz" true).2 rfl⟩

/-- C6 counterexample: the claim predicts that applying
`update_session_stats` twice with the same mastered list increments
`total_words_learned` only once for the single listed word; on the concrete
progress (word "w" with `times_mastered = 1`, counter starting at 0) the
double application yields 2, not 1. -/
theorem C6_counterexample :
    (update_session_stats (update_session_stats c6_progress "d" 3 0 ["w"])
        "d" 3 0 ["w"]).total_words_learned = 2
      ∧ (update_session_stats (update_session_stats c6_progress "d" 3 0 ["w"])
          "d" 3 0 ["w"]).total_words_learned ≠ 1 :=
  ⟨rfl, by decide⟩

/-- C6 (amended): each application of `update_session_stats` adds
`words_learned_increment` — one per listed entry (with multiplicity) whose
stored `times_mastered` is exactly 1 — to `total_words_learned`, and since
`dictionaries_progress` is never modified, applying it twice with the same
mastered list adds twice that amount: repeated aggregation is not
idempotent. -/
theorem C6_double_aggregation_double_counts (p : UserProgress) (dict_id : String)
    (c i : Nat) (ws : List String) :
    (update_session_stats p dict_id c i ws).total_words_learned
        = p.total_words_learned
            + words_learned_increment ((p.dictionaries_progress.lookup dict_id).getD []) ws
      ∧ (update_session_stats (update_session_stats p dict_id c i ws) dict_id c i ws).total_words_learned
        = p.total_words_learned
            + 2 * words_learned_increment ((p.dictionaries_progress.lookup dict_id).getD []) ws := by
  refine ⟨rfl, ?_⟩
  simp only [update_session_stats]
  omega

/-- C7: every word reachable from a fresh word (all counters 0, priority 100)
by any sequence of answer updates satisfies the state invariant:
`total_attempts = correct_count + incorrect_count` (all counters are `Nat`,
hence nonnegative) and `1 ≤ priority_score ≤ 100`. -/
theorem C7_reachable_state_invariant (t : String) (answers : List Bool) :
    (run_answers (Word.fresh t) answers).total_attempts
        = (run_answers (Word.fresh t) answers).correct_count
            + (run_answers (Word.fresh t) answers).incorrect_count
      ∧ 1 ≤ (run_answers (Word.fresh t) answers).priority_score
      ∧ (run_answers (Word.fresh t) answers).priority_score ≤ 100 :=
  run_answers_inv answers (Word.fresh t) rfl (by norm_num [Word.fresh]) (by norm_num [Word.fresh])

/-- C8: whenever the pool holds an unmastered word, selection returns the
text of an unmastered pool member that is minimal under the composite key
`sort_key` — `(-int(hasRecentError), -priorityScore, totalAttempts)` compared
lexicographically ascending by `key_le`, i.e. recent-error words first, then
higher priority, then fewer attempts — among all unmastered words. -/
theorem C8_select_minimal_key (words : List (String × Word))
    (h : ∃ p ∈ words, p.2.is_mastered = false) :
    ∃ t w, get_next_word_by_priority words = some t ∧ (t, w) ∈ words
      ∧ w.is_mastered = false
      ∧ ∀ q ∈ words, q.2.is_mastered = false →
          key_le (sort_key w) (sort_key q.2) = true := by
  rcases get_next_word_spec words with ⟨hn, hall⟩ | ⟨text, wobj, tail, hs, hres, hmem, hum⟩
  · obtain ⟨p, hp, hpm⟩ := h
    rw [hall p hp] at hpm; cases hpm
  · refine ⟨text, wobj, hres, hmem, hum, ?_⟩
    intro q hq hqm
    have hqf : q ∈ words.filter fun p => !p.2.is_mastered :=
      List.mem_filter.mpr ⟨hq, by simp [hqm]⟩
    have hqs : q ∈ (words.filter fun p => !p.2.is_mastered).mergeSort le_word :=
      List.mem_mergeSort.mpr hqf
    have hsorted : ((words.filter fun p => !p.2.is_mastered).mergeSort le_word).Pairwise
        (fun a b => le_word a b) :=
      List.sorted_mergeSort le_word_trans le_word_total _
    rw [hs] at hqs hsorted
    rw [List.pairwise_cons] at hsorted
    rcases List.mem_cons.mp hqs with hq1 | hq1
    · rw [hq1]
      exact key_le_refl _
    · exact hsorted.1 q hq1

/-- C8 witness: on the concrete pool with unmastered words, the hypothesis
holds and selection returns a minimal unmastered word. -/
theorem C8_select_minimal_key_witness :
    (∃ p ∈ c8_pool, p.2.is_mastered = false)
      ∧ (∃ t w, get_next_word_by_priority c8_pool = some t ∧ (t, w) ∈ c8_pool
          ∧ w.is_mastered = false
          ∧ ∀ q ∈ c8_pool, q.2.is_mastered = false →
              key_le (sort_key w) (sort_key q.2) = true) :=
  ⟨by decide, C8_select_minimal_key c8_pool (by decide)⟩

/-- C9 counterexample: the claim predicts `success_rate` equals the ratio
`correct / (correct + incorrect)`; on the concrete stats with one correct
and one incorrect answer the source yields the percentage 50, not 1/2. -/
theorem C9_counterexample :
    SessionStats.success_rate c9_stats = 50
      ∧ SessionStats.success_rate c9_stats
          ≠ (c9_stats.correct_answers : ℚ)
              / ((c9_stats.correct_answers : ℚ) + (c9_stats.incorrect_answers : ℚ)) := by
  constructor
  · norm_num [SessionStats.success_rate, c9_stats]
  · norm_num [SessionStats.success_rate, c9_stats]

/-- C9 (amended): `success_rate` is 0 when no answers were recorded and
otherwise equals the ratio `correct / (correct + incorrect)` expressed as a
percentage (multiplied by 100); and `duration_seconds` is 0 whenever
`ended_at` is unset. -/
theorem C9_success_rate_percent (s : SessionStats) :
    (s.correct_answers + s.incorrect_answers = 0 → s.success_rate = 0)
      ∧ (s.correct_answers + s.incorrect_answers ≠ 0 →
          s.success_rate
            = (s.correct_answers : ℚ)
                / ((s.correct_answers + s.incorrect_answers : Nat) : ℚ) * 100)
      ∧ (s.ended_at = none → s.duration_seconds = 0) := by
  refine ⟨fun h => ?_, fun h => ?_, fun h => ?_⟩
  · simp [SessionStats.success_rate, h]
  · simp [SessionStats.success_rate, h]
  · simp [SessionStats.duration_seconds, h]

/-- C9 witness: the amended statement evaluated on concrete stats — zero
answers give rate 0, one correct of two answers gives the percentage, and a
missing end time gives duration 0. -/
theorem C9_success_rate_percent_witness :
    SessionStats.success_rate c9_zero_stats = 0
      ∧ SessionStats.success_rate c9_stats
          = (c9_stats.correct_answers : ℚ)
              / ((c9_stats.correct_answers + c9_stats.incorrect_answers : Nat) : ℚ) * 100
      ∧ SessionStats.duration_seconds c9_stats = 0 :=
  ⟨(C9_success_rate_percent c9_zero_stats).1 rfl,
   (C9_success_rate_percent c9_stats).2.1 (by decide),
   (C9_success_rate_percent c9_stats).2.2 rfl⟩

/-- C10: for every session with a non-empty word pool, `save_session` takes
its failure branch and persists nothing — serializing the first word reads
the `times_mastered` attribute, which the `Word` model does not declare, so
building `words_stats` raises and the function returns `False`. -/
theorem C10_save_session_fails_nonempty (u : Int) (s : LearningSession)
    (h : s.words ≠ []) : save_session u s = none := by
  cases hw : s.words with
  | nil => exact absurd hw h
  | cons p rest =>
      have hser : serialize_word_stats p.2 = none := rfl
      simp [save_session, hw, hser, List.mapM.loop]

/-- C10 witness: the concrete one-word session has a non-empty pool and its
save fails, persisting nothing. -/
theorem C10_save_session_fails_nonempty_witness :
    c10_session.words ≠ [] ∧ save_session 1 c10_session = none :=
  ⟨by decide, C10_save_session_fails_nonempty 1 c10_session (by decide)⟩
